import Mathlib

/-!
Verification development for the remote-reference discovery, fetch and
trust-verification engine of the ShellCheck (TypeScript Edition) repository.

The repository contains several historical variants of the same modules.
Suffix conventions used below:
  * no suffix / `_current` : the variant in
    `src/ai/tools/detect-and-fetch-remote-scripts.ts` (first document) and
    `src/ai/flows/assess-risk-and-provide-report.ts` (first document);
  * `_p1`, `_p2`, `_p3` : the variants found in the unnamed source documents
    (referred to here as part_001, part_002, part_003);
  * `_p5` : the recursive orchestrator variant (part_005).

JavaScript platform primitives used by the code (`new URL`, string
truthiness, `Array.prototype.join`, `Set` insertion-order iteration, regex
matching) are modelled explicitly; each model notes which primitive it
embeds.  Machine integers do not occur: risk scores are modelled as `Int`,
HTTP status codes as `Nat`.
-/

/-- JavaScript truthiness of an optional string value: `undefined` and the
empty string are falsy, every other string is truthy. -/
def jsTruthyS : Option String → Bool
  | none => false
  | some s => s ≠ ""

/-- The character `$` (36). -/
def dollarC : Char := Char.ofNat 36
/-- The backquote character (96). -/
def backquoteC : Char := Char.ofNat 96
/-- The left curly bracket character (123). -/
def lbraceC : Char := Char.ofNat 123
/-- The right curly bracket character (125). -/
def rbraceC : Char := Char.ofNat 125
/-- The single-quote character (39). -/
def squoteC : Char := Char.ofNat 39
/-- The double-quote character (34). -/
def dquoteC : Char := Char.ofNat 34

/-- Does the list start with the given pattern?  (List-level helper.) -/
def startsWithL : List Char → List Char → Bool
  | [], _ => true
  | _ :: _, [] => false
  | p :: ps, c :: cs => p = c && startsWithL ps cs

/-- Does the pattern occur as a contiguous subsequence of the list?
Models JavaScript `String.prototype.includes` and regex literal search. -/
def containsSeq (pat : List Char) : List Char → Bool
  | [] => startsWithL pat []
  | c :: cs => startsWithL pat (c :: cs) || containsSeq pat cs

/-- Substring test on strings, via `containsSeq`. -/
def strContainsSub (hay pat : String) : Bool :=
  containsSeq pat.toList hay.toList

/-! ### Model of the WHATWG `new URL(str)` constructor

A faithful subset of the WHATWG URL parser as implemented by Node's
`new URL`.  We model only what the validators consult: whether parsing
succeeds, and the scheme.  Covered behavior:

  * tab/newline characters are stripped, leading/trailing C0-or-space
    trimmed;
  * the scheme must start with an ASCII letter, continue with ASCII
    alphanumerics or `+`/`-`/`.`, and be followed by `:`; it is lowercased;
  * for the special non-file schemes (`http`, `https`, `ws`, `wss`, `ftp`)
    all slashes/backslashes after the colon are skipped, then a non-empty
    host free of forbidden host code points is required, optionally
    followed by `:` and a digit-only port;
  * `file:` URLs and non-special schemes (opaque paths) parse successfully.

Path/query/fragment contents never cause a parse failure (invalid
characters there are merely percent-encoded by the real parser), which is
the behavior the validators in this repository rely on: metacharacters
such as `$` or curly brackets inside a path do not make `new URL` throw.
-/

/-- Parsed-URL record: the components the code inspects.  `scheme` is
stored lowercased and without the trailing colon (the TypeScript code
checks `parsedUrl.protocol`, which is the scheme plus `:`). -/
structure URLRec where
  scheme : String
  host : String
deriving DecidableEq, Repr

/-- ASCII letter test. -/
def isAsciiAlpha (c : Char) : Bool :=
  (65 ≤ c.toNat && c.toNat ≤ 90) || (97 ≤ c.toNat && c.toNat ≤ 122)

/-- ASCII digit test. -/
def isAsciiDigit (c : Char) : Bool :=
  48 ≤ c.toNat && c.toNat ≤ 57

/-- Characters allowed after the first character of a URL scheme. -/
def isSchemeChar (c : Char) : Bool :=
  isAsciiAlpha c || isAsciiDigit c || c = '+' || c = '-' || c = '.'

/-- The special schemes that require an authority with a non-empty host. -/
def specialNonFileSchemes : List String := ["http", "https", "ws", "wss", "ftp"]

/-- Forbidden host code points of the WHATWG URL standard (the subset of
printable ASCII; controls are removed beforehand). -/
def isForbiddenHostChar (c : Char) : Bool :=
  c = ' ' || c = '#' || c = '/' || c = ':' || c = '<' || c = '>' ||
  c = '?' || c = '@' || c = '[' || c = '\\' || c = ']' || c = '^' || c = '|'

/-- A character that ends the host component. -/
def isHostDelim (c : Char) : Bool :=
  c = '/' || c = '\\' || c = '?' || c = '#' || c = ':'

/-- Parse the authority (host and optional port) of a special URL.
`rest` is the text after `scheme:`. -/
def parseSpecialAuthority (scheme : String) (rest : List Char) : Option URLRec :=
  let rest1 := rest.dropWhile (fun c => c = '/' || c = '\\')
  let hostChars := rest1.takeWhile (fun c => !isHostDelim c)
  if hostChars.isEmpty then none
  else if hostChars.any isForbiddenHostChar then none
  else
    let after := rest1.drop hostChars.length
    match after with
    | ':' :: tl =>
      let port := tl.takeWhile (fun c => c ≠ '/' && c ≠ '\\' && c ≠ '?' && c ≠ '#')
      if port.all isAsciiDigit then some ⟨scheme, String.mk hostChars⟩ else none
    | _ => some ⟨scheme, String.mk hostChars⟩

/-- Split off a valid scheme: returns the lowercased scheme and the text
after the colon, or `none` when the string has no valid scheme. -/
def splitScheme (cs : List Char) : Option (String × List Char) :=
  match cs with
  | [] => none
  | c :: _ =>
    if isAsciiAlpha c then
      let schemeChars := cs.takeWhile isSchemeChar
      match cs.drop schemeChars.length with
      | ':' :: rest => some (String.mk (schemeChars.map Char.toLower), rest)
      | _ => none
    else none

/-- Model of `new URL(str)`: `some` iff the constructor succeeds. -/
def parseURL (s : String) : Option URLRec :=
  let cs := s.toList.filter (fun c => c ≠ '\t' && c ≠ '\n' && c ≠ '\r')
  let cs := (cs.dropWhile (fun c => c.toNat ≤ 32)).reverse
  let cs := (cs.dropWhile (fun c => c.toNat ≤ 32)).reverse
  match splitScheme cs with
  | none => none
  | some (scheme, rest) =>
    if scheme ∈ specialNonFileSchemes then
      parseSpecialAuthority scheme rest
    else if scheme = "file" then
      some ⟨"file", ""⟩
    else
      some ⟨scheme, ""⟩

/-! ### The four `isValidUrl` variants found in the repository -/

/-- `isValidUrl` from `src/ai/tools/detect-and-fetch-remote-scripts.ts`
(first document, lines 16-23): `try { new URL(urlString); return true }
catch { return false }`.  No metacharacter filtering and no scheme check. -/
def isValidUrl (urlString : String) : Bool :=
  (parseURL urlString).isSome

/-- The rejection test of part_001's `isValidUrl`:
the regex test `/\$\x7b|`|'|"|\(|\)/.test(str)` — true when the string
contains the two-character sequence dollar-lbrace, or a backquote, single
quote, double quote, or parenthesis. -/
def p1Reject (s : String) : Bool :=
  containsSeq [dollarC, lbraceC] s.toList ||
  s.toList.any (fun c => c = backquoteC || c = squoteC || c = dquoteC || c = '(' || c = ')')

/-- `isValidUrl` from part_001 (lines 22-38): reject on the metacharacter
regex, then `new URL` must succeed with protocol `http:` or `https:`. -/
def isValidUrl_p1 (str : String) : Bool :=
  if p1Reject str then false
  else
    match parseURL str with
    | some u => u.scheme = "http" || u.scheme = "https"
    | none => false

/-- `isValidUrl` from part_002 (lines 22-33):
`str.includes('$') || str.includes('\x7b') || str.includes('\x7d')`
rejects, then `new URL` must merely succeed (no scheme check). -/
def isValidUrl_p2 (str : String) : Bool :=
  if str.toList.any (fun c => c = dollarC) ||
     str.toList.any (fun c => c = lbraceC) ||
     str.toList.any (fun c => c = rbraceC) then false
  else (parseURL str).isSome

/-- `isValidUrl` from part_003 (lines 22-36): the regex test
`/[$\x7b\x7d]/.test(str)` rejects any string containing `$` or a curly
bracket; then `new URL` must succeed with protocol `http:` or `https:`. -/
def isValidUrl_p3 (str : String) : Bool :=
  if str.toList.any (fun c => c = dollarC || c = lbraceC || c = rbraceC) then false
  else
    match parseURL str with
    | some u => u.scheme = "http" || u.scheme = "https"
    | none => false

/-! ### Backtracking model of the extraction regexes

The extraction loops run a global regex repeatedly with
`while ((match = urlRegex.exec(scriptContent)) !== null)`.  The regexes at
issue are built from literals, character classes, a lazy star over a
class, greedy plus over a class, and a greedy option, with one capturing
group.  The combinators below implement standard leftmost-first
(backtracking) regex semantics in continuation-passing style; each one is
total by structural recursion on the input.  A continuation receives the
remaining input; the overall result type `R` carries whatever the caller
assembles on success.
-/

section RegexCombinators

variable {R : Type}

/-- Drop a literal pattern from the front of the input, or fail. -/
def dropLit : List Char → List Char → Option (List Char)
  | [], s => some s
  | _ :: _, [] => none
  | p :: ps, c :: cs => if p = c then dropLit ps cs else none

/-- Match a literal, then continue. -/
def litK (w : List Char) (k : List Char → Option R) (s : List Char) : Option R :=
  match dropLit w s with
  | some r => k r
  | none => none

/-- Lazy star over a character class (`[...]*?`): prefer consuming as few
characters as possible, backtracking to longer runs on failure. -/
def clsStarLazyK (p : Char → Bool) (k : List Char → Option R) : List Char → Option R
  | [] => k []
  | c :: rest =>
    match k (c :: rest) with
    | some r => some r
    | none => if p c then clsStarLazyK p k rest else none

/-- Greedy star over a character class with backtracking: prefer consuming
as many characters as possible, giving back on failure. -/
def clsStarGreedyK (p : Char → Bool) (k : List Char → Option R) : List Char → Option R
  | [] => k []
  | c :: rest =>
    if p c then
      match clsStarGreedyK p k rest with
      | some r => some r
      | none => k (c :: rest)
    else k (c :: rest)

/-- Greedy plus over a character class (`[...]+`): at least one character,
then a greedy star. -/
def clsPlusGreedyK (p : Char → Bool) (k : List Char → Option R) : List Char → Option R
  | [] => none
  | c :: rest => if p c then clsStarGreedyK p k rest else none

/-- Greedy option (`(...)?`): try the body first, fall back to skipping. -/
def optGreedyK (body : (List Char → Option R) → List Char → Option R)
    (k : List Char → Option R) (s : List Char) : Option R :=
  match body k s with
  | some r => some r
  | none => k s

end RegexCombinators

/-- JavaScript `\s` on the ASCII range: space, tab, LF, CR, FF, VT. -/
def isJsWhitespace (c : Char) : Bool :=
  c = ' ' || c = '\t' || c = '\n' || c = '\r' || c.toNat = 12 || c.toNat = 11

/-- Character class `[^;\n]` of the current extraction regex. -/
def v1GapChar (c : Char) : Bool := !(c = ';' || c = '\n')

/-- Character class `[^\s'"` + backquote + `) ]` of the current extraction
regex: anything but whitespace, single quote, double quote, backquote,
right parenthesis, space. -/
def v1UrlChar (c : Char) : Bool :=
  !(isJsWhitespace c || c = squoteC || c = dquoteC || c = backquoteC || c = ')')

/-- Character class `[^|;]` of part_001's extraction regex. -/
def p1GapChar (c : Char) : Bool := !(c = '|' || c = ';')

/-- Character class `[^\s'"` + backquote + `$\x7b\x7d()]` of part_001's
extraction regex. -/
def p1UrlChar (c : Char) : Bool :=
  !(isJsWhitespace c || c = squoteC || c = dquoteC || c = backquoteC ||
    c = dollarC || c = lbraceC || c = rbraceC || c = '(' || c = ')')

/-- The capturing group `(https?:\/\/[^\s'"`...` of the current regex:
records the remainder at capture start, matches `https?://` and a greedy
run of URL characters, and returns (capture-start remainder, final
remainder). -/
def captureUrlV1 (s0 : List Char) : Option (List Char × List Char) :=
  litK "http".toList
    (optGreedyK (litK ['s'])
      (litK "://".toList
        (clsPlusGreedyK v1UrlChar (fun r => some (s0, r))))) s0

/-- Attempt of the current extraction regex
`(?:curl|wget)[^;\n]*?\s+(?:-fsSL\s+)?(https?:\/\/[^\s'"`...)` at the head
of the input.  Returns (capture-start remainder, final remainder) on
success. -/
def matchV1At (s : List Char) : Option (List Char × List Char) :=
  let tail := fun r =>
    clsStarLazyK v1GapChar
      (clsPlusGreedyK isJsWhitespace
        (optGreedyK (fun k => litK "-fsSL".toList (clsPlusGreedyK isJsWhitespace k))
          (fun r2 => captureUrlV1 r2))) r
  match dropLit "curl".toList s with
  | some r => tail r
  | none =>
    match dropLit "wget".toList s with
    | some r => tail r
    | none => none

/-- The capturing group `((?:https?:\/\/)[^\s'"`...)` of part_001's regex. -/
def captureUrlP1 (s0 : List Char) : Option (List Char × List Char) :=
  litK "http".toList
    (optGreedyK (litK ['s'])
      (litK "://".toList
        (clsPlusGreedyK p1UrlChar (fun r => some (s0, r))))) s0

/-- Attempt of part_001's extraction regex
`(?:curl|wget)[^|;]*?\s+((?:https?:\/\/)[^\s'"`...)` at the head of the
input. -/
def matchP1At (s : List Char) : Option (List Char × List Char) :=
  let tail := fun r =>
    clsStarLazyK p1GapChar
      (clsPlusGreedyK isJsWhitespace (fun r2 => captureUrlP1 r2)) r
  match dropLit "curl".toList s with
  | some r => tail r
  | none =>
    match dropLit "wget".toList s with
    | some r => tail r
    | none => none

/-- The global-exec loop: scan start positions left to right; on a match,
record the captured group and resume after the match (the JS loop resumes
at `lastIndex`, the end of the match).  `fuel` bounds the number of
iterations; since every match of these regexes consumes at least the four
characters of `curl`/`wget`, each iteration consumes at least one input
character, so `fuel = length + 1` makes this loop equal to the unbounded
JS loop. -/
def execLoop (matchAt : List Char → Option (List Char × List Char)) :
    Nat → List Char → List String
  | 0, _ => []
  | _ + 1, [] => []
  | fuel + 1, s@(_ :: tl) =>
    match matchAt s with
    | some (cs, fin) =>
      String.mk (cs.take (cs.length - fin.length)) :: execLoop matchAt fuel fin
    | none => execLoop matchAt fuel tl

/-- All captures of the current extraction regex over the script, in text
order. -/
def extractUrls (scriptContent : String) : List String :=
  execLoop matchV1At (scriptContent.toList.length + 1) scriptContent.toList

/-- All captures of part_001's extraction regex over the script, in text
order. -/
def extractUrls_p1 (scriptContent : String) : List String :=
  execLoop matchP1At (scriptContent.toList.length + 1) scriptContent.toList

/-! ### Content fetcher -/

/-- Result of one HTTP GET, as the code observes it: either a response
(with status, status text and body) or a thrown transport-level exception
carrying a message.  The network is an oracle `String → HttpResult`
mapping each URL to its result. -/
inductive HttpResult where
  | resp (status : Nat) (statusText : String) (body : String)
  | exn (message : String)
deriving DecidableEq, Repr

/-- `sha256` from the crypto utility module (part_007, lines 12-15).  The
source reads `// This function is being reverted to an empty state.` and
returns the empty string for every input, so no outcome ever carries a
real SHA-256 digest. -/
def sha256 (_text : String) : String := ""

/-- One fetched-script record (`FetchedScriptSchema`): `url` always
present; `content` and `hash` on success, `error` on failure.  The
variant without hashing never sets `hash`. -/
structure FetchedScript where
  url : String
  content : Option String := none
  hash : Option String := none
  error : Option String := none
deriving DecidableEq, Repr

/-- `response.ok` of the Fetch API: status in the range 200-299. -/
def responseOk (status : Nat) : Bool := 200 ≤ status && status < 300

/-- The failure message template of the current tool variant
(`detect-and-fetch-remote-scripts.ts`, lines 67-71). -/
def fetchFailMsg (url : String) (status : Nat) (statusText : String) : String :=
  "Failed to fetch script from " ++ url ++ ". Status: " ++ toString status ++
  " " ++ statusText ++
  ". This introduces a significant security risk as the script's content cannot be verified."

/-- The exception message template of the current tool variant (line 76). -/
def fetchExnMsg (url : String) (message : String) : String :=
  "An exception occurred while trying to fetch script from " ++ url ++ ": " ++
  message ++ ". This could be due to a network issue, DNS problem, or the host being unreachable."

/-- The failure message template of part_001's tool variant (lines 77-81). -/
def fetchFailMsg_p1 (url : String) (status : Nat) (statusText : String) : String :=
  "Failed to fetch script from " ++ url ++ ". Status: " ++ toString status ++
  " " ++ statusText ++ "."

/-- The exception message template of part_001's tool variant (line 87). -/
def fetchExnMsg_p1 (url : String) (message : String) : String :=
  "An exception occurred while trying to fetch script from " ++ url ++ ": " ++
  message ++ "."

/-- One fetch of the current tool variant (lines 59-78): non-2xx responses
and exceptions become error records; success returns `\x7b url, content \x7d`
with no hash. -/
def fetchOne (oracle : String → HttpResult) (url : String) : FetchedScript :=
  match oracle url with
  | .resp status statusText body =>
    if responseOk status then
      { url := url, content := some body }
    else
      { url := url, error := some (fetchFailMsg url status statusText) }
  | .exn message =>
    { url := url, error := some (fetchExnMsg url message) }

/-- One fetch of part_001's tool variant (lines 69-89): like `fetchOne`
but also computes `hash = await sha256(content)` on success and uses the
shorter message templates. -/
def fetchOne_p1 (oracle : String → HttpResult) (url : String) : FetchedScript :=
  match oracle url with
  | .resp status statusText body =>
    if responseOk status then
      { url := url, content := some body, hash := some (sha256 body) }
    else
      { url := url, error := some (fetchFailMsg_p1 url status statusText) }
  | .exn message =>
    { url := url, error := some (fetchExnMsg_p1 url message) }

/-- Model of `[...new Set(list)]`: a JavaScript `Set` iterates in
insertion order and ignores re-insertions, so the spread keeps the first
occurrence of each element.  `seen` is the set accumulated so far. -/
def dedupAux (seen : List String) : List String → List String
  | [] => []
  | x :: xs => if x ∈ seen then dedupAux seen xs else x :: dedupAux (x :: seen) xs

/-- First-occurrence deduplication, `[...new Set(l)]`. -/
def dedupFirst (l : List String) : List String := dedupAux [] l

/-- The validated URL list of the current tool variant (lines 43-53): the
regex captures, trimmed (a no-op here, since the capture class excludes
whitespace), kept when `isValidUrl` accepts them. -/
def validUrls (scriptContent : String) : List String :=
  (extractUrls scriptContent).filter isValidUrl

/-- `uniqueUrls` of the current tool variant (line 56). -/
def uniqueUrls (scriptContent : String) : List String :=
  dedupFirst (validUrls scriptContent)

/-- The current `detectAndFetchRemoteScripts` tool (lines 35-82): extract,
validate, deduplicate, then fetch each unique URL once.  `Promise.all`
over `uniqueUrls.map(...)` resolves to the results in input order, which
`List.map` reproduces. -/
def detectAndFetchRemoteScripts (oracle : String → HttpResult)
    (scriptContent : String) : List FetchedScript :=
  (uniqueUrls scriptContent).map (fetchOne oracle)

/-- `uniqueValidUrls` of part_001's tool variant (line 66):
`[...new Set(potentialUrls.filter(isValidUrl))]`. -/
def uniqueValidUrls_p1 (scriptContent : String) : List String :=
  dedupFirst ((extractUrls_p1 scriptContent).filter isValidUrl_p1)

/-- part_001's `detectAndFetchRemoteScripts` tool (lines 50-93). -/
def detectAndFetchRemoteScripts_p1 (oracle : String → HttpResult)
    (scriptContent : String) : List FetchedScript :=
  (uniqueValidUrls_p1 scriptContent).map (fetchOne_p1 oracle)

/-! ### Trust classifier -/

/-- Verification status of a remote script
(`z.enum(['verified', 'unverified', 'error'])`). -/
inductive TrustStatus where
  | verified
  | unverified
  | error
deriving DecidableEq, Repr

/-- `FetchedScriptWithStatusSchema`: a classified remote-script record. -/
structure TrustRecord where
  url : String
  status : TrustStatus
  details : Option String := none
deriving DecidableEq, Repr

/-- Model of `new Map(entries).get(key)`: with duplicate keys, later
entries overwrite earlier ones, so lookup finds the last binding. -/
def mapGet (entries : List (String × String)) (key : String) : Option String :=
  (entries.reverse.find? (fun p => p.1 = key)).map (·.2)

/-- The classification loop body of `assessRiskAndProvideReportFlow`
(`assess-risk-and-provide-report.ts`, lines 103-121; identically
part_004, lines 102-120):

  * `if (script.error)` — JS truthiness, so a missing or empty error falls
    through;
  * `else if (script.hash && knownScriptsMap.get(script.url) === script.hash)`
    — verified only when the hash is present, non-empty (truthiness) and
    strictly (`===`, case-sensitively) equal to the registry entry;
  * `else` — unverified.

The registry is the `known-scripts.json` entry list (a data file not
present in the sources), so it is a parameter. -/
def classify (registry : List (String × String)) (script : FetchedScript) :
    TrustRecord :=
  if jsTruthyS script.error then
    { url := script.url, status := .error, details := script.error }
  else if jsTruthyS script.hash = true ∧ mapGet registry script.url = script.hash then
    { url := script.url, status := .verified }
  else
    { url := script.url, status := .unverified }

/-! ### The current `assessRiskAndProvideReportFlow`
(`assess-risk-and-provide-report.ts`, lines 77-141)

The flow calls the prompt (the external narrative collaborator) twice:
first on the bare script — during which the collaborator may invoke the
`detectAndFetchRemoteScripts` tool — then again with the verification
results.  The collaborator is an oracle from prompt input to a response
carrying an optional structured output and whether the tool was invoked
(`toolResponse.toolRequests[0]` — when the tool was not invoked, the
`|| []` fallback makes the fetched list empty).  A missing output throws
(`new Error(...)`), modelled with `Except String`. -/

/-- `BillOfMaterialsSchema`. -/
structure BillOfMaterials where
  remoteScripts : List TrustRecord
  externalBinaries : List String
deriving DecidableEq, Repr

/-- `AssessRiskAndProvideReportOutputSchema`. -/
structure AssessOutput where
  riskScore : Int
  report : String
  billOfMaterials : BillOfMaterials
deriving DecidableEq, Repr

/-- Input of `assessRiskAndProvideReportPrompt`: the script plus, on the
second call, the verification results. -/
structure PromptInput where
  scriptContent : String
  verificationResults : Option BillOfMaterials
deriving DecidableEq, Repr

/-- One collaborator response: the structured output, if the model
produced a well-formed one, and whether it requested the fetch tool. -/
structure LlmResponse where
  output : Option AssessOutput
  calledTool : Bool
deriving DecidableEq, Repr

/-- The fetched scripts visible to the flow: the tool's results when the
collaborator requested the tool on the first call, otherwise the `|| []`
fallback (lines 91). -/
def flowFetched (oracle : String → HttpResult)
    (llm : PromptInput → LlmResponse) (scriptContent : String) :
    List FetchedScript :=
  if (llm ⟨scriptContent, none⟩).calledTool then
    detectAndFetchRemoteScripts oracle scriptContent
  else []

/-- The TrustRecord list the flow accumulates (the classification loop,
lines 101-121). -/
def flowRecords (registry : List (String × String))
    (oracle : String → HttpResult) (llm : PromptInput → LlmResponse)
    (scriptContent : String) : List TrustRecord :=
  (flowFetched oracle llm scriptContent).map (classify registry)

/-- The bill of materials passed to the second prompt call (lines
93-127): the engine's records plus the first output's external binaries. -/
def flowBom (registry : List (String × String))
    (oracle : String → HttpResult) (llm : PromptInput → LlmResponse)
    (scriptContent : String) (out1 : AssessOutput) : BillOfMaterials :=
  { remoteScripts := flowRecords registry oracle llm scriptContent,
    externalBinaries := out1.billOfMaterials.externalBinaries }

/-- The flow itself (lines 83-140).  After the second call the code
overwrites `finalResponse.output.billOfMaterials.remoteScripts` with the
engine's own accumulated list and returns that output. -/
def assessRiskAndProvideReportFlow (registry : List (String × String))
    (oracle : String → HttpResult) (llm : PromptInput → LlmResponse)
    (scriptContent : String) : Except String AssessOutput :=
  match (llm ⟨scriptContent, none⟩).output with
  | none => .error "Analysis failed to produce an output."
  | some out1 =>
    let records := flowRecords registry oracle llm scriptContent
    let bom := flowBom registry oracle llm scriptContent out1
    match (llm ⟨scriptContent, some bom⟩).output with
    | none => .error "Final analysis failed to produce an output."
    | some out2 =>
      .ok { out2 with
            billOfMaterials := { out2.billOfMaterials with remoteScripts := records } }

/-! ### The recursive orchestrator (part_005, lines 70-133)

Output schema of this variant: `\x7b riskScore, report \x7d`.  The flow
checks `recursionLevel > MAX_RECURSION_DEPTH` and returns a synthetic
depth-limit report; otherwise it fetches remote scripts, recursively
analyzes each sub-script that has truthy content and no truthy error
(level+1), renders the text blocks, joins them with a blank line, and
hands everything to the collaborator, returning the collaborator's output
verbatim (`finalResponse.output!`).  The `runInNewSpan`/`setAttribute`
instrumentation has no effect on the returned value and is not modelled.

The recursion increments `_recursionLevel` and is cut at the fixed bound,
so it is embedded structurally on the fuel `MAX_RECURSION_DEPTH + 1 -
level`, which is zero exactly when `level > MAX_RECURSION_DEPTH`; this
makes the definition total, which is the termination argument for the
source recursion. -/

/-- Output of the recursive variant's flow. -/
structure RiskReport where
  riskScore : Int
  report : String
deriving DecidableEq, Repr

/-- `MAX_RECURSION_DEPTH` (part_005, line 34). -/
def MAX_RECURSION_DEPTH : Nat := 3

/-- The synthetic depth-limit report (part_005, lines 81-86). -/
def truncationReport (recursionLevel : Nat) : RiskReport :=
  { riskScore := 10,
    report := "Analysis stopped at recursion depth " ++ toString recursionLevel ++
      " to prevent infinite loops. This indicates a deeply nested or circular dependency of remote scripts, which is a significant security risk." }

/-- The error block rendered for a sub-script that could not be fetched or
has empty content (part_005, lines 94-100; `subScript.error ||
'Content was empty.'` is JS truthiness). -/
def errBlock_p5 (sub : FetchedScript) : String :=
  "\n--------------------------------------------------\nSub-script analysis for: " ++
  sub.url ++ "\nERROR: Could not fetch or analyze script. " ++
  (if jsTruthyS sub.error then sub.error.getD "" else "Content was empty.") ++
  "\nThis is a high risk, as it introduces unverified remote code.\n--------------------------------------------------"

/-- The report block rendered for an analyzed sub-script
(part_005, lines 108-114). -/
def reportBlock_p5 (sub : FetchedScript) (analysis : RiskReport) : String :=
  "\n--------------------------------------------------\nSub-script analysis for: " ++
  sub.url ++ "\nRisk Score: " ++ toString analysis.riskScore ++ "/10\n---\n" ++
  analysis.report ++ "\n--------------------------------------------------"

/-- `Array.prototype.join('\n\n')`. -/
def joinBlocks : List String → String
  | [] => ""
  | [b] => b
  | b :: rest => b ++ "\n\n" ++ joinBlocks rest

/-- Fuel-indexed body of the recursive flow; the fuel equals
`MAX_RECURSION_DEPTH + 1 - level`, so fuel 0 is exactly the source's
`recursionLevel > MAX_RECURSION_DEPTH` branch.  The collaborator is an
oracle from (script content, optional sub-script analysis text) to its
report. -/
def assessGo (oracle : String → HttpResult)
    (llm : String → Option String → RiskReport) :
    Nat → String → Nat → RiskReport
  | 0, _, level => truncationReport level
  | fuel + 1, scriptContent, level =>
    let remoteScripts := detectAndFetchRemoteScripts oracle scriptContent
    let reports := remoteScripts.map (fun sub =>
      if jsTruthyS sub.error || !jsTruthyS sub.content then
        errBlock_p5 sub
      else
        reportBlock_p5 sub (assessGo oracle llm fuel (sub.content.getD "") (level + 1)))
    let subScriptAnalysis := joinBlocks reports
    llm scriptContent (if subScriptAnalysis = "" then none else some subScriptAnalysis)

/-- `assessRiskAndProvideReportFlow` of part_005: run the body at
`_recursionLevel = level` (the external entry point passes level 0 and
each recursive call level+1, lines 103-106). -/
def assessFlow_p5 (oracle : String → HttpResult)
    (llm : String → Option String → RiskReport)
    (scriptContent : String) (level : Nat) : RiskReport :=
  assessGo oracle llm (MAX_RECURSION_DEPTH + 1 - level) scriptContent level

/-- The sub-script analysis text assembled at one level (the value of
`subScriptAnalysis`, empty or joined blocks, passed to the collaborator
as `subScriptAnalysis || undefined`). -/
def subAnalysisText_p5 (oracle : String → HttpResult)
    (llm : String → Option String → RiskReport)
    (scriptContent : String) (level : Nat) : String :=
  joinBlocks ((detectAndFetchRemoteScripts oracle scriptContent).map (fun sub =>
    if jsTruthyS sub.error || !jsTruthyS sub.content then
      errBlock_p5 sub
    else
      reportBlock_p5 sub (assessFlow_p5 oracle llm (sub.content.getD "") (level + 1))))

/-- The recursive analyses of a document's direct children: one report per
fetched sub-script with truthy content and no truthy error, analyzed at
`level + 1` (part_005, lines 93-115). -/
def childReports_p5 (oracle : String → HttpResult)
    (llm : String → Option String → RiskReport)
    (scriptContent : String) (level : Nat) : List RiskReport :=
  ((detectAndFetchRemoteScripts oracle scriptContent).filter (fun sub =>
      !jsTruthyS sub.error && jsTruthyS sub.content)).map
    (fun sub => assessFlow_p5 oracle llm (sub.content.getD "") (level + 1))

/-! ### Helper lemmas about first-occurrence deduplication -/

/-- Occurrence count of a string in a list. -/
def countOcc (u : String) (l : List String) : Nat :=
  (l.filter (fun x => x = u)).length

/-- Index of the first occurrence of a string in a list (length if
absent). -/
def firstIdx (u : String) : List String → Nat
  | [] => 0
  | x :: xs => if x = u then 0 else firstIdx u xs + 1

theorem mem_dedupAux (u : String) (l : List String) :
    ∀ seen, u ∈ dedupAux seen l ↔ u ∈ l ∧ u ∉ seen := by
  induction l with
  | nil => intro seen; simp [dedupAux]
  | cons x xs ih =>
    intro seen
    by_cases hx : x ∈ seen
    · rw [dedupAux, if_pos hx, ih seen]
      constructor
      · rintro ⟨hu, hs⟩
        exact ⟨List.mem_cons_of_mem x hu, hs⟩
      · rintro ⟨hu, hs⟩
        rcases List.mem_cons.mp hu with rfl | hu'
        · exact absurd hx hs
        · exact ⟨hu', hs⟩
    · rw [dedupAux, if_neg hx, List.mem_cons, ih (x :: seen)]
      constructor
      · rintro (rfl | ⟨hu, hs⟩)
        · exact ⟨List.mem_cons_self u xs, hx⟩
        · exact ⟨List.mem_cons_of_mem x hu,
            fun h => hs (List.mem_cons_of_mem x h)⟩
      · rintro ⟨hu, hs⟩
        rcases List.mem_cons.mp hu with rfl | hu'
        · exact Or.inl rfl
        · by_cases hux : u = x
          · exact Or.inl hux
          · refine Or.inr ⟨hu', fun h => ?_⟩
            rcases List.mem_cons.mp h with h' | h'
            · exact hux h'
            · exact hs h'

theorem mem_dedupFirst (u : String) (l : List String) :
    u ∈ dedupFirst l ↔ u ∈ l := by
  simpa using mem_dedupAux u l []

theorem countOcc_cons (u x : String) (xs : List String) :
    countOcc u (x :: xs) = (if x = u then 1 else 0) + countOcc u xs := by
  by_cases h : x = u
  · simp [countOcc, List.filter, h]
    omega
  · simp [countOcc, List.filter, h]

theorem countOcc_dedupAux (u : String) (l : List String) :
    ∀ seen, countOcc u (dedupAux seen l) =
      if u ∈ l ∧ u ∉ seen then 1 else 0 := by
  induction l with
  | nil => intro seen; simp [dedupAux, countOcc]
  | cons x xs ih =>
    intro seen
    by_cases hx : x ∈ seen
    · rw [dedupAux, if_pos hx, ih seen]
      by_cases hux : u = x
      · subst hux
        simp [hx]
      · simp [List.mem_cons, hux, fun h : x = u => hux h.symm]
    · rw [dedupAux, if_neg hx, countOcc_cons, ih (x :: seen)]
      by_cases hux : u = x
      · subst hux
        simp [hx]
      · have hiff : (u ∈ xs ∧ u ∉ x :: seen) ↔ (u ∈ x :: xs ∧ u ∉ seen) := by
          constructor
          · rintro ⟨hu, hs⟩
            exact ⟨List.mem_cons_of_mem x hu,
              fun h => hs (List.mem_cons_of_mem x h)⟩
          · rintro ⟨hu, hs⟩
            rcases List.mem_cons.mp hu with rfl | hu'
            · exact absurd rfl hux
            · refine ⟨hu', fun h => ?_⟩
              rcases List.mem_cons.mp h with h' | h'
              · exact hux h'
              · exact hs h'
        rw [if_neg (fun h : x = u => hux h.symm), if_congr hiff rfl rfl]
        omega

theorem countOcc_dedupFirst (u : String) (l : List String) :
    countOcc u (dedupFirst l) = if u ∈ l then 1 else 0 := by
  simpa using countOcc_dedupAux u l []

theorem sublist_dedupAux (l : List String) :
    ∀ seen, List.Sublist (dedupAux seen l) l := by
  induction l with
  | nil => intro seen; simp [dedupAux]
  | cons x xs ih =>
    intro seen
    by_cases hx : x ∈ seen
    · rw [dedupAux, if_pos hx]
      exact (ih seen).cons x
    · rw [dedupAux, if_neg hx]
      exact (ih (x :: seen)).cons₂ x

theorem sublist_dedupFirst (l : List String) :
    List.Sublist (dedupFirst l) l :=
  sublist_dedupAux l []

theorem nodup_dedupAux (l : List String) :
    ∀ seen, (dedupAux seen l).Nodup := by
  induction l with
  | nil => intro seen; simp [dedupAux]
  | cons x xs ih =>
    intro seen
    by_cases hx : x ∈ seen
    · rw [dedupAux, if_pos hx]; exact ih seen
    · rw [dedupAux, if_neg hx]
      refine List.nodup_cons.mpr ⟨fun h => ?_, ih (x :: seen)⟩
      exact ((mem_dedupAux x xs (x :: seen)).mp h).2 (List.mem_cons_self x seen)

theorem nodup_dedupFirst (l : List String) : (dedupFirst l).Nodup :=
  nodup_dedupAux l []

theorem pairwise_firstIdx_dedupAux (l : List String) :
    ∀ seen, (dedupAux seen l).Pairwise
      (fun a b => firstIdx a l < firstIdx b l) := by
  induction l with
  | nil => intro seen; simp [dedupAux]
  | cons x xs ih =>
    intro seen
    by_cases hx : x ∈ seen
    · rw [dedupAux, if_pos hx]
      refine ((ih seen).imp_of_mem ?_)
      intro a b ha hb hab
      have ha' := (mem_dedupAux a xs seen).mp ha
      have hb' := (mem_dedupAux b xs seen).mp hb
      have hax : x ≠ a := fun h => ha'.2 (h ▸ hx)
      have hbx : x ≠ b := fun h => hb'.2 (h ▸ hx)
      simp only [firstIdx, if_neg hax, if_neg hbx]
      omega
    · rw [dedupAux, if_neg hx]
      refine List.pairwise_cons.mpr ⟨?_, ?_⟩
      · intro b hb
        have hb' := (mem_dedupAux b xs (x :: seen)).mp hb
        have hbx : x ≠ b := fun h => hb'.2 (h ▸ List.mem_cons_self x seen)
        show firstIdx x (x :: xs) < firstIdx b (x :: xs)
        rw [firstIdx, if_pos rfl, firstIdx, if_neg hbx]
        omega
      · refine ((ih (x :: seen)).imp_of_mem ?_)
        intro a b ha hb hab
        have ha' := (mem_dedupAux a xs (x :: seen)).mp ha
        have hb' := (mem_dedupAux b xs (x :: seen)).mp hb
        have hax : x ≠ a := fun h => ha'.2 (h ▸ List.mem_cons_self x seen)
        have hbx : x ≠ b := fun h => hb'.2 (h ▸ List.mem_cons_self x seen)
        simp only [firstIdx, if_neg hax, if_neg hbx]
        omega

theorem pairwise_firstIdx_dedupFirst (l : List String) :
    (dedupFirst l).Pairwise (fun a b => firstIdx a l < firstIdx b l) :=
  pairwise_firstIdx_dedupAux l []

/-- The fetchers tag every outcome with the URL it was created for. -/
theorem fetchOne_url (oracle : String → HttpResult) (url : String) :
    (fetchOne oracle url).url = url := by
  unfold fetchOne
  cases oracle url with
  | resp status statusText body =>
    by_cases h : responseOk status = true <;> simp [h]
  | exn message => rfl

/-- part_001's fetcher tags every outcome with its URL as well. -/
theorem fetchOne_p1_url (oracle : String → HttpResult) (url : String) :
    (fetchOne_p1 oracle url).url = url := by
  unfold fetchOne_p1
  cases oracle url with
  | resp status statusText body =>
    by_cases h : responseOk status = true <;> simp [h]
  | exn message => rfl

/-- The classifier preserves the outcome's URL. -/
theorem classify_url (registry : List (String × String))
    (script : FetchedScript) : (classify registry script).url = script.url := by
  unfold classify
  by_cases h1 : jsTruthyS script.error = true
  · simp [h1]
  · by_cases h2 : jsTruthyS script.hash = true ∧
      mapGet registry script.url = script.hash <;> simp [h1, h2]

/-! ### Claims -/

/-- Claim C1, counterexample.  The claim states that the reference
validator rejects every string containing `$`, a backquote, `\x7b` or
`\x7d`.  No `isValidUrl` variant in the repository does: the current one
(URL-parse only) accepts the URL-shaped string with a shell variable in
its path that the claim itself names; part_001's accepts curly brackets
that are not immediately preceded by `$`; part_002's and part_003's
accept backquotes. -/
theorem C1_counterexample :
    isValidUrl "https://host/$\x7bx\x7d.sh" = true ∧
    isValidUrl_p1 "https://host/\x7bx\x7d.sh" = true ∧
    isValidUrl_p2 "https://host/a`b.sh" = true ∧
    isValidUrl_p3 "https://host/a`b.sh" = true :=
  ⟨rfl, rfl, rfl, rfl⟩

/-- Claim C1, amended.  The strict historical validator variants
(part_002 and part_003) reject every candidate string containing `$`,
`\x7b` or `\x7d`; the backquote is not covered by them, and the current
validator performs no metacharacter check at all. -/
theorem C1_theorem (s : String)
    (h : s.toList.any (fun c => c = dollarC || c = lbraceC || c = rbraceC) = true) :
    isValidUrl_p2 s = false ∧ isValidUrl_p3 s = false := by
  rcases List.any_eq_true.mp h with ⟨c, hc, hcp⟩
  have hcc : c = dollarC ∨ c = lbraceC ∨ c = rbraceC := by
    have := hcp
    simp only [Bool.or_eq_true, decide_eq_true_eq] at this
    tauto
  constructor
  · unfold isValidUrl_p2
    have hcond : (s.toList.any (fun ch => ch = dollarC) ||
        s.toList.any (fun ch => ch = lbraceC) ||
        s.toList.any (fun ch => ch = rbraceC)) = true := by
      rcases hcc with rfl | rfl | rfl
      · have hA : s.toList.any (fun ch => ch = dollarC) = true :=
          List.any_eq_true.mpr ⟨_, hc, by simp⟩
        rw [hA, Bool.true_or, Bool.true_or]
      · have hA : s.toList.any (fun ch => ch = lbraceC) = true :=
          List.any_eq_true.mpr ⟨_, hc, by simp⟩
        rw [hA, Bool.or_true, Bool.true_or]
      · have hA : s.toList.any (fun ch => ch = rbraceC) = true :=
          List.any_eq_true.mpr ⟨_, hc, by simp⟩
        rw [hA, Bool.or_true]
    rw [if_pos hcond]
  · unfold isValidUrl_p3
    rw [if_pos h]

/-- Witness for the amended claim C1 at a concrete input. -/
theorem C1_witness :
    ("https://host/$x.sh".toList.any
      (fun c => c = dollarC || c = lbraceC || c = rbraceC)) = true ∧
    isValidUrl_p2 "https://host/$x.sh" = false ∧
    isValidUrl_p3 "https://host/$x.sh" = false :=
  ⟨by decide, C1_theorem "https://host/$x.sh" (by decide)⟩

/-- Claim C2, counterexample.  The claim states that a success outcome
whose digest equals the registry's expected digest is `verified`, and
that comparison happens on case-normalized hex.  The code's
`script.hash && map.get(url) === script.hash` guard makes an empty digest
(which is what the stubbed `sha256` always produces) unverifiable even
when the registry entry is identical, and the `===` comparison is
case-sensitive, so a digest differing only in case is `unverified`. -/
theorem C2_counterexample :
    classify [("https://a.io/s", "")]
      ⟨"https://a.io/s", some "c", some "", none⟩ =
      ⟨"https://a.io/s", TrustStatus.unverified, none⟩ ∧
    classify [("https://a.io/s", "abc")]
      ⟨"https://a.io/s", some "c", some "ABC", none⟩ =
      ⟨"https://a.io/s", TrustStatus.unverified, none⟩ :=
  ⟨rfl, rfl⟩

/-- Claim C2, amended.  Classification of a fetched script: a truthy
error yields status `error` carrying the fetch error text; a success
outcome with a present, non-empty digest exactly (case-sensitively) equal
to the registry entry for its URL yields `verified`; a success outcome
with missing or empty digest, or whose registry lookup is not strictly
equal to its digest, yields `unverified`. -/
theorem C2_theorem (registry : List (String × String)) (s : FetchedScript) :
    (jsTruthyS s.error = true →
      classify registry s = ⟨s.url, TrustStatus.error, s.error⟩) ∧
    (jsTruthyS s.error = false → ∀ h, s.hash = some h → h ≠ "" →
      mapGet registry s.url = some h →
      classify registry s = ⟨s.url, TrustStatus.verified, none⟩) ∧
    (jsTruthyS s.error = false →
      (jsTruthyS s.hash = false ∨ mapGet registry s.url ≠ s.hash) →
      classify registry s = ⟨s.url, TrustStatus.unverified, none⟩) := by
  refine ⟨?_, ?_, ?_⟩
  · intro he
    unfold classify
    rw [if_pos he]
  · intro he h hh hne hm
    unfold classify
    rw [if_neg (by simp [he]), if_pos ?_]
    refine ⟨by simp [jsTruthyS, hh, hne], by rw [hm, hh]⟩
  · intro he hcase
    unfold classify
    rw [if_neg (by simp [he]), if_neg ?_]
    rintro ⟨h1, h2⟩
    rcases hcase with hf | hf
    · rw [hf] at h1; exact Bool.false_ne_true h1
    · exact hf h2

/-- Witness for the amended claim C2 at a concrete input. -/
theorem C2_witness :
    classify [("u", "abc")] ⟨"u", some "c", some "abc", none⟩ =
      ⟨"u", TrustStatus.verified, none⟩ :=
  (C2_theorem [("u", "abc")] ⟨"u", some "c", some "abc", none⟩).2.1
    (by decide) "abc" rfl (by decide) (by decide)

/-- Claim C9, counterexample.  The claim states that the validator
accepts only `http`/`https` absolute URLs.  The current `isValidUrl`
(URL-parse only, `detect-and-fetch-remote-scripts.ts` lines 16-23)
accepts any parseable URL regardless of scheme, here `ftp:`. -/
theorem C9_counterexample :
    isValidUrl "ftp://example.com/x" = true ∧
    isValidUrl "file:///etc/passwd" = true :=
  ⟨rfl, rfl⟩

/-- Claim C9, amended.  part_001's validator variant has the scheme
check: it accepts a string only if `new URL` succeeds with scheme `http`
or `https`, and rejects every string parsing to any other scheme.  The
current validator has no scheme check. -/
theorem C9_theorem (s : String) :
    (isValidUrl_p1 s = true →
      ∃ u, parseURL s = some u ∧ (u.scheme = "http" ∨ u.scheme = "https")) ∧
    (∀ u, parseURL s = some u → u.scheme ≠ "http" → u.scheme ≠ "https" →
      isValidUrl_p1 s = false) := by
  constructor
  · intro h
    unfold isValidUrl_p1 at h
    split at h
    · exact absurd h (by simp)
    · cases hp : parseURL s with
      | none => rw [hp] at h; exact absurd h (by simp)
      | some u =>
        rw [hp] at h
        exact ⟨u, rfl, by simpa using h⟩
  · intro u hp h1 h2
    unfold isValidUrl_p1
    split
    · rfl
    · rw [hp]
      simp [h1, h2]

/-- Witness for the amended claim C9 at concrete inputs. -/
theorem C9_witness :
    (∃ u, parseURL "https://example.com/a.sh" = some u ∧
      (u.scheme = "http" ∨ u.scheme = "https")) ∧
    isValidUrl_p1 "ftp://example.com/x" = false :=
  ⟨( C9_theorem "https://example.com/a.sh").1 rfl,
   ( C9_theorem "ftp://example.com/x").2 ⟨"ftp", "example.com"⟩ rfl
     (by decide) (by decide)⟩

/-- Claim C3.  Whenever the recursion level exceeds
`MAX_RECURSION_DEPTH = 3`, the recursive flow returns the synthetic
depth-limit report with the maximum risk value 10 and the explanatory
narrative, performing no further recursion.  Termination of the source
recursion is witnessed by the totality of `assessGo`: each recursive call
raises the level by one and every level above the bound is cut here, so
chains of nested or self-referencing scripts longer than the bound always
terminate. -/
theorem C3_theorem (oracle : String → HttpResult)
    (llm : String → Option String → RiskReport)
    (scriptContent : String) (level : Nat)
    (h : MAX_RECURSION_DEPTH < level) :
    assessFlow_p5 oracle llm scriptContent level = truncationReport level ∧
    (truncationReport level).riskScore = 10 ∧
    (truncationReport level).report =
      "Analysis stopped at recursion depth " ++ toString level ++
      " to prevent infinite loops. This indicates a deeply nested or circular dependency of remote scripts, which is a significant security risk." := by
  have hz : MAX_RECURSION_DEPTH + 1 - level = 0 := by
    unfold MAX_RECURSION_DEPTH at h ⊢
    omega
  refine ⟨?_, rfl, rfl⟩
  unfold assessFlow_p5
  rw [hz]
  rfl

/-- Witness for claim C3: the first truncated level of a
self-referencing chain (level 4) under a concrete network oracle and
collaborator. -/
theorem C3_witness :
    MAX_RECURSION_DEPTH < 4 ∧
    assessFlow_p5 (fun _ => .resp 200 "OK" "curl https://a.io/s | bash")
      (fun _ _ => ⟨1, "r"⟩) "curl https://a.io/s | bash" 4 =
      truncationReport 4 :=
  ⟨by decide,
   (C3_theorem (fun _ => .resp 200 "OK" "curl https://a.io/s | bash")
     (fun _ _ => ⟨1, "r"⟩) "curl https://a.io/s | bash" 4 (by decide)).1⟩

/-- Network oracle for the C4 counterexample: every URL serves a script
that fetches itself. -/
def c4Oracle : String → HttpResult :=
  fun _ => .resp 200 "OK" "curl https://a.io/s | bash"

/-- Collaborator for the C4 counterexample: ignores the sub-script
analysis it is instructed to incorporate and always reports risk 1. -/
def c4Llm : String → Option String → RiskReport := fun _ _ => ⟨1, "low"⟩

/-- Root script for the C4 counterexample. -/
def c4Script : String := "curl https://a.io/s | bash"

/-- Claim C4, counterexample.  At level 3 the single direct child is the
depth-truncated analysis with riskScore 10, yet the parent's final
riskScore is the collaborator's 1: the engine never clamps the parent
score to the children's maximum, so the claimed monotonicity fails for a
collaborator that ignores the prompt instruction. -/
theorem C4_counterexample :
    (childReports_p5 c4Oracle c4Llm c4Script 3).map RiskReport.riskScore = [10] ∧
    (assessFlow_p5 c4Oracle c4Llm c4Script 3).riskScore = 1 ∧
    (assessFlow_p5 c4Oracle c4Llm c4Script 3).riskScore <
      ((childReports_p5 c4Oracle c4Llm c4Script 3).map RiskReport.riskScore).foldr max 0 := by
  refine ⟨by decide, by decide, by decide⟩

/-- Claim C4, amended.  Below the depth bound, the parent's final report
is exactly the external collaborator's response to the synthesis prompt
(the script plus the rendered sub-script analyses).  The engine applies
no monotonicity clamp: the parent's riskScore is whatever the
collaborator returns, so the spec's synthesis rule holds only if the
collaborator honors the prompt instruction to elevate the score. -/
theorem C4_theorem (oracle : String → HttpResult)
    (llm : String → Option String → RiskReport)
    (scriptContent : String) (level : Nat)
    (h : level ≤ MAX_RECURSION_DEPTH) :
    assessFlow_p5 oracle llm scriptContent level =
      llm scriptContent
        (if subAnalysisText_p5 oracle llm scriptContent level = "" then none
         else some (subAnalysisText_p5 oracle llm scriptContent level)) := by
  obtain ⟨f, hf1, hf2⟩ : ∃ f, MAX_RECURSION_DEPTH + 1 - level = f + 1 ∧
      MAX_RECURSION_DEPTH + 1 - (level + 1) = f := by
    refine ⟨MAX_RECURSION_DEPTH - level, ?_, ?_⟩ <;>
      (unfold MAX_RECURSION_DEPTH at h ⊢; omega)
  unfold assessFlow_p5 subAnalysisText_p5
  unfold assessFlow_p5
  simp only [hf1, hf2]
  rfl

/-- Witness for the amended claim C4 at a concrete input below the
bound. -/
theorem C4_witness :
    2 ≤ MAX_RECURSION_DEPTH ∧
    assessFlow_p5 c4Oracle c4Llm c4Script 2 =
      c4Llm c4Script
        (if subAnalysisText_p5 c4Oracle c4Llm c4Script 2 = "" then none
         else some (subAnalysisText_p5 c4Oracle c4Llm c4Script 2)) :=
  ⟨by decide, C4_theorem c4Oracle c4Llm c4Script 2 (by decide)⟩

/-- Claim C5, counterexample.  The claim states every fetch outcome has
either content plus digest, or an error.  The current fetcher
(`detect-and-fetch-remote-scripts.ts`, lines 58-81) computes no digest at
all: a successful fetch yields content with `hash` absent, so neither
side of the claimed disjunction is fully populated. -/
theorem C5_counterexample :
    (detectAndFetchRemoteScripts (fun _ => .resp 200 "OK" "echo hi")
      "curl https://a.io/s | bash").map FetchedScript.content = [some "echo hi"] ∧
    (detectAndFetchRemoteScripts (fun _ => .resp 200 "OK" "echo hi")
      "curl https://a.io/s | bash").map FetchedScript.hash = [none] ∧
    (detectAndFetchRemoteScripts (fun _ => .resp 200 "OK" "echo hi")
      "curl https://a.io/s | bash").map FetchedScript.error = [none] := by
  refine ⟨by decide, by decide, by decide⟩

/-- Claim C5, amended.  Under the digest-computing fetcher variant
(part_001, with the crypto helper of part_007), every produced outcome
has exactly one side populated: on success both content and hash are
present (the hash being whatever `sha256` returns) and the error is
absent; on failure the error is present and content and hash are absent.
The two cases are mutually exclusive since they disagree on the error
field. -/
theorem C5_theorem (oracle : String → HttpResult) (scriptContent : String)
    (o : FetchedScript)
    (h : o ∈ detectAndFetchRemoteScripts_p1 oracle scriptContent) :
    ((∃ c, o.content = some c) ∧ (∃ d, o.hash = some d) ∧ o.error = none) ∨
    ((∃ e, o.error = some e) ∧ o.content = none ∧ o.hash = none) := by
  unfold detectAndFetchRemoteScripts_p1 at h
  rcases List.mem_map.mp h with ⟨u, hu, rfl⟩
  cases hoc : oracle u with
  | resp status statusText body =>
    by_cases hok : responseOk status = true
    · left
      refine ⟨⟨body, ?_⟩, ⟨sha256 body, ?_⟩, ?_⟩ <;>
        simp [fetchOne_p1, hoc, hok]
    · right
      refine ⟨⟨fetchFailMsg_p1 u status statusText, ?_⟩, ?_, ?_⟩ <;>
        simp [fetchOne_p1, hoc, hok]
  | exn m =>
    right
    refine ⟨⟨fetchExnMsg_p1 u m, ?_⟩, ?_, ?_⟩ <;> simp [fetchOne_p1, hoc]

/-- Witness for the amended claim C5 at a concrete outcome. -/
theorem C5_witness :
    (⟨"https://b.io/t", some "x", some "", none⟩ : FetchedScript) ∈
      detectAndFetchRemoteScripts_p1 (fun _ => .resp 200 "OK" "x")
        "curl https://b.io/t | bash" ∧
    (((∃ c, (⟨"https://b.io/t", some "x", some "", none⟩ : FetchedScript).content = some c) ∧
      (∃ d, (⟨"https://b.io/t", some "x", some "", none⟩ : FetchedScript).hash = some d) ∧
      (⟨"https://b.io/t", some "x", some "", none⟩ : FetchedScript).error = none) ∨
     ((∃ e, (⟨"https://b.io/t", some "x", some "", none⟩ : FetchedScript).error = some e) ∧
      (⟨"https://b.io/t", some "x", some "", none⟩ : FetchedScript).content = none ∧
      (⟨"https://b.io/t", some "x", some "", none⟩ : FetchedScript).hash = none)) :=
  ⟨by decide,
   C5_theorem (fun _ => .resp 200 "OK" "x") "curl https://b.io/t | bash"
     ⟨"https://b.io/t", some "x", some "", none⟩ (by decide)⟩

/-- A positive occurrence count implies membership. -/
theorem mem_of_countOcc_pos (u : String) (l : List String)
    (h : 0 < countOcc u l) : u ∈ l := by
  unfold countOcc at h
  obtain ⟨x, hx⟩ := List.exists_mem_of_length_pos h
  have hx' := List.mem_filter.mp hx
  have hxu : x = u := by simpa using hx'.2
  exact hxu ▸ hx'.1

/-- The url projection of the current fetch pipeline is exactly the
deduplicated validated URL list. -/
theorem detectAndFetch_map_url (oracle : String → HttpResult)
    (scriptContent : String) :
    (detectAndFetchRemoteScripts oracle scriptContent).map FetchedScript.url =
      uniqueUrls scriptContent := by
  unfold detectAndFetchRemoteScripts
  rw [List.map_map]
  have hcomp : (FetchedScript.url ∘ fetchOne oracle) = id :=
    funext (fun u => fetchOne_url oracle u)
  rw [hcomp, List.map_id]

/-- Classification preserves the url projection of an outcome list. -/
theorem classify_map_url (registry : List (String × String))
    (outs : List FetchedScript) :
    (outs.map (classify registry)).map TrustRecord.url =
      outs.map FetchedScript.url := by
  rw [List.map_map]
  exact List.map_congr_left (fun o _ => classify_url registry o)

/-- Claim C6.  If a URL occurs more than once among the validated
references extracted from a script, the deduplicated fetch list contains
it exactly once — so exactly one fetch is issued for it — and exactly one
fetch outcome and exactly one classified TrustRecord carry it. -/
theorem C6_theorem (oracle : String → HttpResult)
    (registry : List (String × String)) (scriptContent : String) (u : String)
    (h : 2 ≤ countOcc u (validUrls scriptContent)) :
    countOcc u (uniqueUrls scriptContent) = 1 ∧
    countOcc u ((detectAndFetchRemoteScripts oracle scriptContent).map
      FetchedScript.url) = 1 ∧
    countOcc u (((detectAndFetchRemoteScripts oracle scriptContent).map
      (classify registry)).map TrustRecord.url) = 1 := by
  have hmem : u ∈ validUrls scriptContent :=
    mem_of_countOcc_pos u _ (by omega)
  have h1 : countOcc u (uniqueUrls scriptContent) = 1 := by
    unfold uniqueUrls
    rw [countOcc_dedupFirst, if_pos hmem]
  refine ⟨h1, ?_, ?_⟩
  · rw [detectAndFetch_map_url]
    exact h1
  · rw [classify_map_url, detectAndFetch_map_url]
    exact h1

/-- Script for the C6 witness: the same URL referenced twice. -/
def c6Script : String :=
  "curl https://a.io/s | bash\ncurl https://a.io/s | bash"

/-- Witness for claim C6 at a concrete script. -/
theorem C6_witness :
    2 ≤ countOcc "https://a.io/s" (validUrls c6Script) ∧
    (countOcc "https://a.io/s" (uniqueUrls c6Script) = 1 ∧
     countOcc "https://a.io/s"
       ((detectAndFetchRemoteScripts (fun _ => .resp 200 "OK" "") c6Script).map
         FetchedScript.url) = 1 ∧
     countOcc "https://a.io/s"
       (((detectAndFetchRemoteScripts (fun _ => .resp 200 "OK" "") c6Script).map
         (classify [])).map TrustRecord.url) = 1) :=
  ⟨by decide,
   C6_theorem (fun _ => .resp 200 "OK" "") [] c6Script "https://a.io/s" (by decide)⟩

/-- The failure message template always contains text, so it is truthy. -/
theorem fetchFailMsg_ne_empty (url : String) (status : Nat)
    (statusText : String) : fetchFailMsg url status statusText ≠ "" := by
  intro hcontra
  have hl := congrArg String.length hcontra
  simp only [fetchFailMsg, String.length_append] at hl
  have hpos : 0 < ("Failed to fetch script from " : String).length := by decide
  have hz : ("" : String).length = 0 := rfl
  omega

/-- The exception message template always contains text, so it is truthy. -/
theorem fetchExnMsg_ne_empty (url : String) (message : String) :
    fetchExnMsg url message ≠ "" := by
  intro hcontra
  have hl := congrArg String.length hcontra
  simp only [fetchExnMsg, String.length_append] at hl
  have hpos : 0 <
      ("An exception occurred while trying to fetch script from " : String).length := by
    decide
  have hz : ("" : String).length = 0 := rfl
  omega

/-- Claim C7.  The flow never raises because of a fetch failure: the only
error exits are the two synthesis-output checks.  A non-2xx response or a
thrown exception becomes an outcome whose classification is a TrustRecord
with status `error` whose detail embeds the status code or the failure
description. -/
theorem C7_theorem (registry : List (String × String))
    (oracle : String → HttpResult) (llm : PromptInput → LlmResponse)
    (scriptContent : String) :
    ((llm ⟨scriptContent, none⟩).output = none →
      assessRiskAndProvideReportFlow registry oracle llm scriptContent =
        .error "Analysis failed to produce an output.") ∧
    (∀ out1, (llm ⟨scriptContent, none⟩).output = some out1 →
      (llm ⟨scriptContent,
        some (flowBom registry oracle llm scriptContent out1)⟩).output = none →
      assessRiskAndProvideReportFlow registry oracle llm scriptContent =
        .error "Final analysis failed to produce an output.") ∧
    (∀ out1 out2, (llm ⟨scriptContent, none⟩).output = some out1 →
      (llm ⟨scriptContent,
        some (flowBom registry oracle llm scriptContent out1)⟩).output = some out2 →
      assessRiskAndProvideReportFlow registry oracle llm scriptContent =
        .ok ⟨out2.riskScore, out2.report,
          ⟨flowRecords registry oracle llm scriptContent,
           out2.billOfMaterials.externalBinaries⟩⟩) ∧
    (∀ url status statusText body,
      oracle url = .resp status statusText body → responseOk status = false →
      classify registry (fetchOne oracle url) =
        ⟨url, TrustStatus.error, some (fetchFailMsg url status statusText)⟩ ∧
      ∃ a b, fetchFailMsg url status statusText = a ++ toString status ++ b) ∧
    (∀ url message, oracle url = .exn message →
      classify registry (fetchOne oracle url) =
        ⟨url, TrustStatus.error, some (fetchExnMsg url message)⟩ ∧
      ∃ a b, fetchExnMsg url message = a ++ message ++ b) := by
  refine ⟨?_, ?_, ?_, ?_, ?_⟩
  · intro h
    simp only [assessRiskAndProvideReportFlow, h]
  · intro out1 h1 h2
    simp only [assessRiskAndProvideReportFlow, h1, h2]
  · intro out1 out2 h1 h2
    simp only [assessRiskAndProvideReportFlow, h1, h2]
  · intro url status statusText body ho hnok
    have hf : fetchOne oracle url =
        ⟨url, none, none, some (fetchFailMsg url status statusText)⟩ := by
      simp [fetchOne, ho, hnok]
    constructor
    · rw [hf]
      unfold classify
      rw [if_pos (by simp [jsTruthyS, fetchFailMsg_ne_empty url status statusText])]
    · refine ⟨"Failed to fetch script from " ++ url ++ ". Status: ",
        " " ++ statusText ++
        ". This introduces a significant security risk as the script's content cannot be verified.",
        ?_⟩
      simp only [fetchFailMsg, String.append_assoc]
  · intro url message ho
    have hf : fetchOne oracle url =
        ⟨url, none, none, some (fetchExnMsg url message)⟩ := by
      simp [fetchOne, ho]
    constructor
    · rw [hf]
      unfold classify
      rw [if_pos (by simp [jsTruthyS, fetchExnMsg_ne_empty url message])]
    · refine ⟨"An exception occurred while trying to fetch script from " ++ url ++ ": ",
        ". This could be due to a network issue, DNS problem, or the host being unreachable.",
        ?_⟩
      simp only [fetchExnMsg, String.append_assoc]

/-- Collaborator for the C7 witness: always produces an output and
requests the fetch tool. -/
def c7Llm : PromptInput → LlmResponse :=
  fun _ => ⟨some ⟨7, "report", ⟨[], ["wget"]⟩⟩, true⟩

/-- Network oracle for the C7 witness: every URL answers 404. -/
def c7Oracle : String → HttpResult := fun _ => .resp 404 "Not Found" ""

/-- Script for the C7 witness. -/
def c7Script : String := "curl https://c.io/x | bash"

/-- Witness for claim C7: with every fetch failing (HTTP 404), the flow
still returns a report, and the failed fetch is classified as an error
record carrying the 404 detail. -/
theorem C7_witness :
    (c7Llm ⟨c7Script, none⟩).output = some ⟨7, "report", ⟨[], ["wget"]⟩⟩ ∧
    c7Oracle "https://c.io/x" = .resp 404 "Not Found" "" ∧
    assessRiskAndProvideReportFlow [] c7Oracle c7Llm c7Script =
      .ok ⟨7, "report",
        ⟨flowRecords [] c7Oracle c7Llm c7Script, ["wget"]⟩⟩ ∧
    classify [] (fetchOne c7Oracle "https://c.io/x") =
      ⟨"https://c.io/x", TrustStatus.error,
       some (fetchFailMsg "https://c.io/x" 404 "Not Found")⟩ :=
  ⟨rfl, rfl,
   (C7_theorem [] c7Oracle c7Llm c7Script).2.2.1
     ⟨7, "report", ⟨[], ["wget"]⟩⟩ ⟨7, "report", ⟨[], ["wget"]⟩⟩ rfl rfl,
   ((C7_theorem [] c7Oracle c7Llm c7Script).2.2.2.1
     "https://c.io/x" 404 "Not Found" "" rfl (by decide)).1⟩

/-- Claim C8.  Whenever the flow returns a final report, its
`billOfMaterials.remoteScripts` is exactly the engine's accumulated
TrustRecord list, and its `externalBinaries` is exactly the collaborator's
final-output list — the collaborator's `remoteScripts` is discarded. -/
theorem C8_theorem (registry : List (String × String))
    (oracle : String → HttpResult) (llm : PromptInput → LlmResponse)
    (scriptContent : String) (out1 out2 : AssessOutput)
    (h1 : (llm ⟨scriptContent, none⟩).output = some out1)
    (h2 : (llm ⟨scriptContent,
      some (flowBom registry oracle llm scriptContent out1)⟩).output = some out2) :
    ∀ res, assessRiskAndProvideReportFlow registry oracle llm scriptContent =
      .ok res →
      res.billOfMaterials.remoteScripts =
        flowRecords registry oracle llm scriptContent ∧
      res.billOfMaterials.externalBinaries =
        out2.billOfMaterials.externalBinaries := by
  intro res hres
  simp only [assessRiskAndProvideReportFlow, h1, h2, Except.ok.injEq] at hres
  rw [← hres]
  exact ⟨rfl, rfl⟩

/-- Collaborator for the C8 witness: its own bill of materials carries a
bogus remote-script record, which the engine must discard. -/
def c8Llm : PromptInput → LlmResponse :=
  fun _ => ⟨some ⟨9, "rep8",
    ⟨[⟨"https://bogus.example/x", TrustStatus.verified, none⟩], ["gcc"]⟩⟩, false⟩

/-- Witness for claim C8: the collaborator never requests the tool and
reports a bogus remote-script list, yet the final report's remoteScripts
is the engine's own (empty) list while externalBinaries comes from the
collaborator. -/
theorem C8_witness :
    (c8Llm ⟨"echo hi", none⟩).output = some ⟨9, "rep8",
      ⟨[⟨"https://bogus.example/x", TrustStatus.verified, none⟩], ["gcc"]⟩⟩ ∧
    assessRiskAndProvideReportFlow [] c7Oracle c8Llm "echo hi" =
      .ok ⟨9, "rep8", ⟨flowRecords [] c7Oracle c8Llm "echo hi", ["gcc"]⟩⟩ ∧
    (flowRecords [] c7Oracle c8Llm "echo hi" =
      flowRecords [] c7Oracle c8Llm "echo hi" ∧
     ["gcc"] = (⟨9, "rep8",
      ⟨[⟨"https://bogus.example/x", TrustStatus.verified, none⟩], ["gcc"]⟩⟩ :
        AssessOutput).billOfMaterials.externalBinaries) :=
  ⟨rfl,
   (C7_theorem [] c7Oracle c8Llm "echo hi").2.2.1 _ _ rfl rfl,
   C8_theorem [] c7Oracle c8Llm "echo hi" _ _ rfl rfl
     ⟨9, "rep8", ⟨flowRecords [] c7Oracle c8Llm "echo hi", ["gcc"]⟩⟩
     ((C7_theorem [] c7Oracle c8Llm "echo hi").2.2.1 _ _ rfl rfl)⟩

/-- Claim C10.  The current tool returns exactly one outcome per unique
validated URL: the outcome url list is the first-occurrence
deduplication of the validated reference list, without duplicates,
containing exactly the validated URLs, as a sublist of the extraction
order sorted by each URL's first occurrence in the text; and each
outcome's url is the URL it was created for (the positional equality of
the mapped list). -/
theorem C10_theorem (oracle : String → HttpResult) (scriptContent : String) :
    (detectAndFetchRemoteScripts oracle scriptContent).map FetchedScript.url =
      dedupFirst (validUrls scriptContent) ∧
    (dedupFirst (validUrls scriptContent)).Nodup ∧
    (∀ u, u ∈ dedupFirst (validUrls scriptContent) ↔
      u ∈ validUrls scriptContent) ∧
    List.Sublist (dedupFirst (validUrls scriptContent))
      (validUrls scriptContent) ∧
    (dedupFirst (validUrls scriptContent)).Pairwise
      (fun a b => firstIdx a (validUrls scriptContent) <
        firstIdx b (validUrls scriptContent)) ∧
    (∀ u, countOcc u ((detectAndFetchRemoteScripts oracle scriptContent).map
        FetchedScript.url) =
      if u ∈ validUrls scriptContent then 1 else 0) := by
  refine ⟨detectAndFetch_map_url oracle scriptContent,
    nodup_dedupFirst _,
    fun u => mem_dedupFirst u _,
    sublist_dedupFirst _,
    pairwise_firstIdx_dedupFirst _,
    fun u => ?_⟩
  rw [detectAndFetch_map_url]
  exact countOcc_dedupFirst u _

/-! ### Concrete end-to-end checks (spec scenarios) -/

/-- Extraction and validation of a mixed sample script with both idiom
families the current regex covers. -/
theorem validUrls_sample :
    validUrls "curl -fsSL https://a.io/install.sh | bash\nwget https://b.io/x.sh | sh" =
      ["https://a.io/install.sh", "https://b.io/x.sh"] := by decide

/-- A candidate built from an unexpanded shell variable yields no
validated references, hence no fetches, in both extraction pipelines. -/
theorem shellVariable_no_fetch :
    uniqueUrls "curl $\x7bREPO_URL\x7d/setup.sh | bash" = [] ∧
    uniqueValidUrls_p1 "curl $\x7bREPO_URL\x7d/setup.sh | bash" = [] :=
  ⟨rfl, rfl⟩

/-- A self-referencing (cyclic) chain terminates: starting at level 0
with every URL serving the same self-fetching script, the analysis
reaches the depth bound and returns; the root collaborator sees a
non-empty sub-script analysis. -/
theorem cyclic_chain_sample :
    assessFlow_p5 (fun _ => .resp 200 "OK" "curl https://cycle.io/a | bash")
      (fun _ sub => ⟨(if sub = none then 2 else 5), "r"⟩)
      "curl https://cycle.io/a | bash" 0 = ⟨5, "r"⟩ := by decide
